import Mathlib

/-!
A shallow embedding of the precaching strategy implemented in
`src/packages/workbox-precaching/src/utils/PrecacheStrategy.ts`, together with
theorems settling the behavioural claims about it.

The excluded collaborators (the base `Strategy` and `StrategyHandler` classes
from workbox-strategies, and `copyResponse` from workbox-core, none of which
are under `src/`) are modelled from the spec where noted.  Collaborator effects
are made explicit as an event trace so that fetch counts and store-commit
counts are statable.
-/

namespace Workbox

/-- A resource request: URL, method and headers (spec section 3).  The
strategy only reads it. -/
structure Request where
  url : String
  method : String
  headers : List (String × String)
deriving Repr, DecidableEq

/-- A resource response: a status code, a redirect flag, headers and a body
(spec section 3). -/
structure Response where
  status : Nat
  redirected : Bool
  headers : List (String × String)
  body : String
deriving Repr, DecidableEq

/-- Modelled from the spec: `copyResponse` (workbox-core, not under `src/`).
Produces a semantically equivalent response with the redirect flag cleared,
preserving status, headers, and body (spec section 4.4). -/
def copyResponse (r : Response) : Response :=
  { r with redirected := false }

/-- The module-level transform of PrecacheStrategy.ts (lines 20-22):
`response.redirected ? await copyResponse(response) : response`. -/
def copyRedirectedResponses (r : Response) : Response :=
  if r.redirected then copyResponse r else r

/-- A will-update transform installed in the hook set.  The source compares
hooks against the built-in by reference identity
(`plugin.cacheWillUpdate !== copyRedirectedResponses`); since the built-in
function is module-private and never exported, a caller-supplied hook can
never be reference-identical to it, which the tagged representation encodes
directly (spec section 9 suggests exactly this representation). -/
inductive Transform where
  | copyRedirectedResponses : Transform
  | custom : (Response → Response) → Transform

/-- The reference-identity test against the built-in transform. -/
def Transform.isCopyRedirectedResponses : Transform → Bool
  | .copyRedirectedResponses => true
  | .custom _ => false

/-- Apply one will-update transform to a response. -/
def Transform.apply : Transform → Response → Response
  | .copyRedirectedResponses, r => Workbox.copyRedirectedResponses r
  | .custom f, r => f r

/-- A plugin as held in the strategy's `plugins` array: an optional
will-update hook (the only hook this file's logic inspects). -/
structure Plugin where
  cacheWillUpdate : Option Transform

/-- A caller-supplied plugin passed in the constructor options: its
will-update hook, when present, is a caller-written function, never the
module-private built-in. -/
structure CallerPlugin where
  cacheWillUpdate : Option (Response → Response)

/-- Injection of a caller-supplied plugin into the strategy's plugin list. -/
def CallerPlugin.toPlugin (p : CallerPlugin) : Plugin :=
  { cacheWillUpdate := p.cacheWillUpdate.map Transform.custom }

/-- The options given to the constructor (spec sections 3 and 6). -/
structure StrategyOptions where
  cacheName : String
  plugins : List CallerPlugin

/-- The state of a strategy instance: a cache name and the plugin list, both
fixed at construction (spec section 5: the hook set is mutated only once, at
construction time). -/
structure PrecacheStrategy where
  cacheName : String
  plugins : List Plugin

/-- The `PrecacheStrategy` constructor (lines 25-34).  The base `Strategy`
constructor (workbox-strategies, not under `src/`; modelled from the spec,
which has the caller hook set supplied at construction) installs the caller
plugins; then `this.plugins.push({cacheWillUpdate: copyRedirectedResponses})`
appends the built-in transform at the end of the list. -/
def PrecacheStrategy.make (options : StrategyOptions) : PrecacheStrategy :=
  { cacheName := options.cacheName
    plugins := options.plugins.map CallerPlugin.toPlugin ++
      [{ cacheWillUpdate := some Transform.copyRedirectedResponses }] }

/-- `_usesCustomCacheableResponseLogic` (lines 127-135): true when some
installed plugin has a `cacheWillUpdate` hook that is not reference-identical
to the built-in `copyRedirectedResponses`. -/
def PrecacheStrategy.usesCustomCacheableResponseLogic (s : PrecacheStrategy) : Bool :=
  s.plugins.any fun plugin =>
    match plugin.cacheWillUpdate with
    | some t => !t.isCopyRedirectedResponses
    | none => false

/-- The will-update hooks of a strategy's hook set, in registration order
(spec section 3: transforms run in registration order). -/
def PrecacheStrategy.willUpdateTransforms (s : PrecacheStrategy) : List Transform :=
  s.plugins.filterMap Plugin.cacheWillUpdate

/-- Run a transform chain over a response, in registration order. -/
def applyWillUpdate (ts : List Transform) (r : Response) : Response :=
  ts.foldl (fun acc t => t.apply acc) r

/-- An observable collaborator operation, recorded in call order. -/
inductive Event where
  | cacheLookup : Request → Event
  | networkFetch : Request → Event
  | storeCommit : Request → Response → Event
deriving Repr, DecidableEq

/-- Number of cache lookups in a trace. -/
def lookupCount (tr : List Event) : Nat :=
  tr.countP fun e => match e with | Event.cacheLookup _ => true | _ => false

/-- Number of network fetches in a trace. -/
def fetchCount (tr : List Event) : Nat :=
  tr.countP fun e => match e with | Event.networkFetch _ => true | _ => false

/-- Number of store commits in a trace. -/
def commitCount (tr : List Event) : Nat :=
  tr.countP fun e => match e with | Event.storeCommit _ _ => true | _ => false

/-- The per-call parameters carried by the event context (spec sections 3
and 6).  `fallbackToNetwork` is `none` when the field is unset; the source
only ever tests it with strict equality against `false`. -/
structure Params where
  fallbackToNetwork : Option Bool
  cacheKey : Option String

/-- The per-call context a `StrategyHandler` supplies: the triggering event
kind (`none` when `handler.event` is absent), the optional per-call
parameters, and oracles for the two external data sources — what the cache
currently holds and what the network yields.  `none` from `network` models
the collaborator yielding no response at all. -/
structure Handler where
  eventType : Option String
  params : Option Params
  cached : Request → Option Response
  network : Request → Option Response

/-- Failures observable from a strategy call.  The first two are the
`WorkboxError` codes thrown in the source; `typeError` models the JavaScript
`TypeError` raised by reading a property of an absent value. -/
inductive StrategyError where
  | missingPrecacheEntry : (cacheName : String) → (url : String) → StrategyError
  | badPrecachingResponse : (url : String) → (status : Nat) → StrategyError
  | typeError : StrategyError
deriving Repr, DecidableEq

/-- The outcome of a strategy call: the settled value (`Except.ok none`
models resolving with no response) and the trace of collaborator
operations. -/
abbrev CallResult := Except StrategyError (Option Response) × List Event

/-- `_handleFetch` (lines 45-88): `await handler.cacheMatch(request)`; on a
miss, either throw `missing-precache-entry` (when `handler.params` exists and
`handler.params.fallbackToNetwork === false`) or fall back to
`handler.fetch(request)` and return its result.  The logger calls are the
excluded diagnostics sink: dev-build-only and never influencing control
flow (spec sections 1 and 6). -/
def PrecacheStrategy.handleFetch (s : PrecacheStrategy) (h : Handler)
    (request : Request) : CallResult :=
  match h.cached request with
  | some response => (Except.ok (some response), [Event.cacheLookup request])
  | none =>
    if (match h.params with
        | some p => p.fallbackToNetwork == some false
        | none => false) then
      (Except.error (StrategyError.missingPrecacheEntry s.cacheName request.url),
        [Event.cacheLookup request])
    else
      (Except.ok (h.network request),
        [Event.cacheLookup request, Event.networkFetch request])

/-- Modelled from the spec: `StrategyHandler.fetchAndCachePut`
(workbox-strategies, not under `src/`).  Spec sections 4.3 and 6: perform a
network fetch; on success, run the full response-transform chain and commit
the resulting response to the cache store in one atomic fetch-and-store
operation, yielding the fetched response.  When the fetch yields no response,
nothing is committed. -/
def Handler.fetchAndCachePut (h : Handler) (s : PrecacheStrategy)
    (request : Request) : Option Response × List Event :=
  match h.network request with
  | none => (none, [Event.networkFetch request])
  | some response =>
      (some response,
        [Event.networkFetch request,
         Event.storeCommit request (applyWillUpdate s.willUpdateTransforms response)])

/-- `_handleInstall` (lines 90-114), over the spec-modelled
`Handler.fetchAndCachePut`.  `Boolean(response)` is presence; the guarded
status test can only lower `responseSafeToPrecache` to false; an unsafe
result throws `bad-precaching-response` built from `response.status` — a
property read that raises a `TypeError` when `response` is absent. -/
def PrecacheStrategy.handleInstall (s : PrecacheStrategy) (h : Handler)
    (request : Request) : CallResult :=
  let fetched := h.fetchAndCachePut s request
  let response := fetched.1
  let responseSafeToPrecache :=
    response.isSome &&
      !((match response with
         | some r => decide (400 ≤ r.status)
         | none => false) && !s.usesCustomCacheableResponseLogic)
  if responseSafeToPrecache then
    (Except.ok response, fetched.2)
  else
    match response with
    | some r =>
        (Except.error (StrategyError.badPrecachingResponse request.url r.status),
          fetched.2)
    | none => (Except.error StrategyError.typeError, fetched.2)

/-- `_handle` (lines 36-43): dispatch on
`handler.event && handler.event.type === 'install'`. -/
def PrecacheStrategy.handle (s : PrecacheStrategy) (h : Handler)
    (request : Request) : CallResult :=
  if (match h.eventType with
      | some t => t == "install"
      | none => false) then
    s.handleInstall h request
  else
    s.handleFetch h request

/-! Concrete fixtures used by witness theorems and counterexamples. -/

/-- A concrete request. -/
def exampleRequest : Request :=
  { url := "https://example.com/app.js", method := "GET", headers := [] }

/-- A concrete OK response. -/
def exampleResponse200 : Response :=
  { status := 200, redirected := false,
    headers := [("content-type", "text/plain")], body := "ok" }

/-- A concrete not-found response. -/
def exampleResponse404 : Response :=
  { status := 404, redirected := false, headers := [], body := "not found" }

/-- A concrete server-error response. -/
def exampleResponse500 : Response :=
  { status := 500, redirected := false, headers := [], body := "boom" }

/-- A concrete opaque response (status 0). -/
def exampleResponse0 : Response :=
  { status := 0, redirected := false, headers := [], body := "" }

/-- A concrete redirected response. -/
def exampleRedirectedResponse : Response :=
  { status := 200, redirected := true, headers := [("location", "/next")], body := "moved" }

/-- Constructor options with no caller-supplied plugins. -/
def emptyOptions : StrategyOptions :=
  { cacheName := "precache-v1", plugins := [] }

/-- Constructor options with one caller-supplied will-update plugin. -/
def customOptions : StrategyOptions :=
  { cacheName := "precache-v1", plugins := [{ cacheWillUpdate := some (fun r => r) }] }

/-- The strategy built from `emptyOptions`. -/
def baseStrategy : PrecacheStrategy :=
  PrecacheStrategy.make emptyOptions

/-- A handler whose cache lookup hits. -/
def hitHandler : Handler :=
  { eventType := none, params := none,
    cached := fun _ => some exampleResponse200, network := fun _ => none }

/-- A handler whose cache lookup misses, with no per-call parameters. -/
def missFallbackHandler : Handler :=
  { eventType := none, params := none,
    cached := fun _ => none, network := fun _ => some exampleResponse200 }

/-- A handler whose cache lookup misses, with fallback explicitly disabled. -/
def missNoFallbackHandler : Handler :=
  { eventType := none,
    params := some { fallbackToNetwork := some false, cacheKey := some "app.js" },
    cached := fun _ => none, network := fun _ => some exampleResponse200 }

/-- An install-time handler whose network yields the given outcome. -/
def installHandler (r : Option Response) : Handler :=
  { eventType := some "install", params := none,
    cached := fun _ => none, network := fun _ => r }

/-! Helper lemmas shared by several claim proofs. -/

/-- The custom-logic detector's scan over injected caller plugins reduces to
a scan of the caller-supplied plugins for a will-update hook. -/
theorem any_toPlugin_eq (l : List CallerPlugin) :
    ((l.map CallerPlugin.toPlugin).any fun plugin =>
      match plugin.cacheWillUpdate with
      | some t => !t.isCopyRedirectedResponses
      | none => false)
      = l.any fun cp => cp.cacheWillUpdate.isSome := by
  induction l with
  | nil => rfl
  | cons cp l ih =>
    simp only [List.map_cons, List.any_cons, ih]
    cases hcp : cp.cacheWillUpdate <;>
      simp [CallerPlugin.toPlugin, hcp, Transform.isCopyRedirectedResponses]

/-- `_usesCustomCacheableResponseLogic` on a constructed instance is exactly:
some caller-supplied plugin has a will-update hook. -/
theorem usesCustom_make (options : StrategyOptions) :
    (PrecacheStrategy.make options).usesCustomCacheableResponseLogic
      = options.plugins.any fun cp => cp.cacheWillUpdate.isSome := by
  simp only [PrecacheStrategy.usesCustomCacheableResponseLogic, PrecacheStrategy.make,
    List.any_append]
  rw [any_toPlugin_eq]
  simp [Transform.isCopyRedirectedResponses]

/-- When no caller-supplied plugin has a will-update hook, the detector
reports false. -/
theorem usesCustom_make_eq_false (options : StrategyOptions)
    (hnone : ∀ cp ∈ options.plugins, cp.cacheWillUpdate = none) :
    (PrecacheStrategy.make options).usesCustomCacheableResponseLogic = false := by
  rw [usesCustom_make, List.any_eq_false]
  intro cp hcp
  simp [hnone cp hcp]

/-- A will-update hook contributed by a caller-supplied plugin is never the
built-in transform. -/
theorem callerTransform_not_builtin (l : List CallerPlugin) (t : Transform)
    (ht : t ∈ (l.map CallerPlugin.toPlugin).filterMap Plugin.cacheWillUpdate) :
    t.isCopyRedirectedResponses = false := by
  simp only [List.mem_filterMap, List.mem_map] at ht
  obtain ⟨plugin, ⟨cp, _, hcp⟩, hsome⟩ := ht
  subst hcp
  simp only [CallerPlugin.toPlugin, Option.map_eq_some'] at hsome
  obtain ⟨f, _, hft⟩ := hsome
  subst hft
  rfl

/-- Claim C3: on a request-time cache miss where the per-call configuration
explicitly disables network fallback, `_handleFetch` fails with a
`missing-precache-entry` error carrying the cache name and the request URL,
and performs zero network fetches. -/
theorem handleFetch_miss_fallbackDisabled_missingEntry (s : PrecacheStrategy)
    (h : Handler) (request : Request) (p : Params)
    (hmiss : h.cached request = none) (hp : h.params = some p)
    (hfb : p.fallbackToNetwork = some false) :
    (s.handleFetch h request).1
        = Except.error (StrategyError.missingPrecacheEntry s.cacheName request.url) ∧
      fetchCount (s.handleFetch h request).2 = 0 := by
  simp [PrecacheStrategy.handleFetch, hmiss, hp, hfb, fetchCount, List.countP_cons]

/-- Witness for claim C3 at a concrete miss with fallback disabled. -/
theorem handleFetch_miss_fallbackDisabled_missingEntry_witness :
    missNoFallbackHandler.cached exampleRequest = none ∧
    missNoFallbackHandler.params
        = some { fallbackToNetwork := some false, cacheKey := some "app.js" } ∧
    (baseStrategy.handleFetch missNoFallbackHandler exampleRequest).1
        = Except.error
            (StrategyError.missingPrecacheEntry baseStrategy.cacheName exampleRequest.url) ∧
    fetchCount (baseStrategy.handleFetch missNoFallbackHandler exampleRequest).2 = 0 :=
  ⟨rfl, rfl,
    (handleFetch_miss_fallbackDisabled_missingEntry baseStrategy missNoFallbackHandler
      exampleRequest _ rfl rfl rfl).1,
    (handleFetch_miss_fallbackDisabled_missingEntry baseStrategy missNoFallbackHandler
      exampleRequest _ rfl rfl rfl).2⟩

/-- Claim C6: on a request-time cache hit, `_handleFetch` returns exactly the
stored response, unchanged, with a trace of one cache lookup and zero network
fetches. -/
theorem handleFetch_hit_returns_cached (s : PrecacheStrategy) (h : Handler)
    (request : Request) (r : Response) (hhit : h.cached request = some r) :
    s.handleFetch h request = (Except.ok (some r), [Event.cacheLookup request]) ∧
      fetchCount (s.handleFetch h request).2 = 0 := by
  simp [PrecacheStrategy.handleFetch, hhit, fetchCount, List.countP_cons]

/-- Witness for claim C6 at a concrete cache hit. -/
theorem handleFetch_hit_returns_cached_witness :
    hitHandler.cached exampleRequest = some exampleResponse200 ∧
    baseStrategy.handleFetch hitHandler exampleRequest
        = (Except.ok (some exampleResponse200), [Event.cacheLookup exampleRequest]) ∧
    fetchCount (baseStrategy.handleFetch hitHandler exampleRequest).2 = 0 :=
  ⟨rfl,
    (handleFetch_hit_returns_cached baseStrategy hitHandler exampleRequest
      exampleResponse200 rfl).1,
    (handleFetch_hit_returns_cached baseStrategy hitHandler exampleRequest
      exampleResponse200 rfl).2⟩

/-- Claim C7: on a request-time cache miss with network fallback enabled,
`_handleFetch` performs exactly one network fetch and returns that fetch's
result; and in every request-time call at most one cache lookup and at most
one fallback fetch occur. -/
theorem handleFetch_miss_fallbackEnabled_single_fetch :
    (∀ (s : PrecacheStrategy) (h : Handler) (request : Request),
      h.cached request = none →
      (∀ p, h.params = some p → p.fallbackToNetwork ≠ some false) →
      (s.handleFetch h request).1 = Except.ok (h.network request) ∧
        fetchCount (s.handleFetch h request).2 = 1) ∧
    ∀ (s : PrecacheStrategy) (h : Handler) (request : Request),
      lookupCount (s.handleFetch h request).2 ≤ 1 ∧
        fetchCount (s.handleFetch h request).2 ≤ 1 := by
  constructor
  · intro s h request hmiss hfb
    cases hp : h.params with
    | none =>
      simp [PrecacheStrategy.handleFetch, hmiss, hp, fetchCount, List.countP_cons]
    | some p =>
      have hne : p.fallbackToNetwork ≠ some false := hfb p hp
      simp [PrecacheStrategy.handleFetch, hmiss, hp, hne, fetchCount, List.countP_cons]
  · intro s h request
    unfold PrecacheStrategy.handleFetch
    cases h.cached request with
    | some r => simp [lookupCount, fetchCount, List.countP_cons]
    | none =>
      by_cases hc : (match h.params with
          | some p => p.fallbackToNetwork == some false
          | none => false) = true
      · simp [hc, lookupCount, fetchCount, List.countP_cons]
      · simp [hc, lookupCount, fetchCount, List.countP_cons]

/-- Witness for claim C7 at a concrete miss with fallback enabled. -/
theorem handleFetch_miss_fallbackEnabled_single_fetch_witness :
    missFallbackHandler.cached exampleRequest = none ∧
    (∀ p, missFallbackHandler.params = some p → p.fallbackToNetwork ≠ some false) ∧
    ((baseStrategy.handleFetch missFallbackHandler exampleRequest).1
        = Except.ok (missFallbackHandler.network exampleRequest) ∧
      fetchCount (baseStrategy.handleFetch missFallbackHandler exampleRequest).2 = 1) ∧
    (lookupCount (baseStrategy.handleFetch missFallbackHandler exampleRequest).2 ≤ 1 ∧
      fetchCount (baseStrategy.handleFetch missFallbackHandler exampleRequest).2 ≤ 1) :=
  ⟨rfl, fun p hp => by simp [missFallbackHandler] at hp,
    handleFetch_miss_fallbackEnabled_single_fetch.1 baseStrategy missFallbackHandler
      exampleRequest rfl (fun p hp => by simp [missFallbackHandler] at hp),
    handleFetch_miss_fallbackEnabled_single_fetch.2 baseStrategy missFallbackHandler
      exampleRequest⟩

/-- Claim C9: on a request-time cache miss, `_handleFetch` raises
`missing-precache-entry` exactly when a per-call parameters object is present
and its `fallbackToNetwork` field is strictly equal to `false`; otherwise
(parameters absent, field unset, or any non-false value) it performs a
network fetch and returns its result. -/
theorem handleFetch_missingEntry_iff_fallback_false (s : PrecacheStrategy)
    (h : Handler) (request : Request) (hmiss : h.cached request = none) :
    ((s.handleFetch h request).1
        = Except.error (StrategyError.missingPrecacheEntry s.cacheName request.url)
      ↔ ∃ p, h.params = some p ∧ p.fallbackToNetwork = some false) ∧
    ((∀ p, h.params = some p → p.fallbackToNetwork ≠ some false) →
      (s.handleFetch h request).1 = Except.ok (h.network request) ∧
        fetchCount (s.handleFetch h request).2 = 1) := by
  cases hp : h.params with
  | none =>
    constructor
    · simp [PrecacheStrategy.handleFetch, hmiss, hp]
    · intro _
      simp [PrecacheStrategy.handleFetch, hmiss, hp, fetchCount, List.countP_cons]
  | some p =>
    by_cases hfb : p.fallbackToNetwork = some false
    · refine ⟨⟨fun _ => ⟨p, rfl, hfb⟩, fun _ => ?_⟩, fun hall => absurd hfb (hall p rfl)⟩
      simp [PrecacheStrategy.handleFetch, hmiss, hp, hfb]
    · constructor
      · simp [PrecacheStrategy.handleFetch, hmiss, hp, hfb]
      · intro _
        simp [PrecacheStrategy.handleFetch, hmiss, hp, hfb, fetchCount, List.countP_cons]

/-- Witness for claim C9 at a concrete miss with the parameters object
absent. -/
theorem handleFetch_missingEntry_iff_fallback_false_witness :
    missFallbackHandler.cached exampleRequest = none ∧
    (¬ (baseStrategy.handleFetch missFallbackHandler exampleRequest).1
        = Except.error
            (StrategyError.missingPrecacheEntry baseStrategy.cacheName exampleRequest.url)) ∧
    ((baseStrategy.handleFetch missFallbackHandler exampleRequest).1
        = Except.ok (missFallbackHandler.network exampleRequest) ∧
      fetchCount (baseStrategy.handleFetch missFallbackHandler exampleRequest).2 = 1) :=
  ⟨rfl,
    fun herr => by
      have hex := (handleFetch_missingEntry_iff_fallback_false baseStrategy
        missFallbackHandler exampleRequest rfl).1.mp herr
      simp [missFallbackHandler] at hex,
    (handleFetch_missingEntry_iff_fallback_false baseStrategy missFallbackHandler
      exampleRequest rfl).2 (fun p hp => by simp [missFallbackHandler] at hp)⟩

/-- Claim C1 (counterexample): an install-time 404 fetch on an instance with
no caller-supplied plugins does fail with `bad-precaching-response`, but the
cache store is not left unchanged: the fetch-and-store step has already
performed one store commit, so the number of store commits is not zero. -/
theorem install_404_noCustom_commits :
    (baseStrategy.handleInstall (installHandler (some exampleResponse404))
          exampleRequest).1
      = Except.error (StrategyError.badPrecachingResponse "https://example.com/app.js" 404) ∧
    ¬ commitCount (baseStrategy.handleInstall (installHandler (some exampleResponse404))
        exampleRequest).2 = 0 := by
  constructor
  · rfl
  · decide

/-- Claim C1 (amended): for every install-time fetch yielding a response with
status at least 400 on an instance with no caller-supplied will-update
transform, `_handleInstall` fails with `bad-precaching-response` carrying the
request URL and status, and exactly one store commit has occurred — the
fetch-and-store collaborator commits the response before the safety check
runs, so the failed call does not leave the store unchanged. -/
theorem handleInstall_badStatus_noCustom_fails_after_commit (options : StrategyOptions)
    (h : Handler) (request : Request) (r : Response)
    (hr : h.network request = some r) (hst : 400 ≤ r.status)
    (hnone : ∀ cp ∈ options.plugins, cp.cacheWillUpdate = none) :
    ((PrecacheStrategy.make options).handleInstall h request).1
        = Except.error (StrategyError.badPrecachingResponse request.url r.status) ∧
      commitCount ((PrecacheStrategy.make options).handleInstall h request).2 = 1 := by
  have hcust := usesCustom_make_eq_false options hnone
  simp [PrecacheStrategy.handleInstall, Handler.fetchAndCachePut, hr, hcust, hst,
    commitCount, List.countP_cons]

/-- Witness for the amended claim C1 at a concrete 500 response. -/
theorem handleInstall_badStatus_noCustom_fails_after_commit_witness :
    (installHandler (some exampleResponse500)).network exampleRequest
        = some exampleResponse500 ∧
    400 ≤ exampleResponse500.status ∧
    (∀ cp ∈ emptyOptions.plugins, cp.cacheWillUpdate = none) ∧
    ((PrecacheStrategy.make emptyOptions).handleInstall
          (installHandler (some exampleResponse500)) exampleRequest).1
        = Except.error
            (StrategyError.badPrecachingResponse exampleRequest.url
              exampleResponse500.status) ∧
    commitCount ((PrecacheStrategy.make emptyOptions).handleInstall
        (installHandler (some exampleResponse500)) exampleRequest).2 = 1 :=
  ⟨rfl, by decide, by simp [emptyOptions],
    (handleInstall_badStatus_noCustom_fails_after_commit emptyOptions
      (installHandler (some exampleResponse500)) exampleRequest exampleResponse500
      rfl (by decide) (by simp [emptyOptions])).1,
    (handleInstall_badStatus_noCustom_fails_after_commit emptyOptions
      (installHandler (some exampleResponse500)) exampleRequest exampleResponse500
      rfl (by decide) (by simp [emptyOptions])).2⟩

/-- Claim C4: when the fetch-and-store collaborator yields no response at
all, `_handleInstall` deems the result unsafe, but the thrown failure is not
a `bad-precaching-response` error carrying the URL and an absence marker:
building that error reads `response.status` of the absent response, which
raises a `TypeError`.  No store commit occurs. -/
theorem handleInstall_absentResponse_typeError :
    (baseStrategy.handleInstall (installHandler none) exampleRequest).1
        = Except.error StrategyError.typeError ∧
      commitCount (baseStrategy.handleInstall (installHandler none) exampleRequest).2 = 0 :=
  ⟨rfl, rfl⟩

/-- Claim C5: for every install-time fetch yielding a response with status at
least 400 on an instance constructed with at least one caller-supplied
will-update transform, the default status-code safety check is bypassed and
`_handleInstall` commits the response (one store commit) and returns it. -/
theorem handleInstall_badStatus_customLogic_commits (options : StrategyOptions)
    (h : Handler) (request : Request) (r : Response)
    (hr : h.network request = some r) (_hst : 400 ≤ r.status)
    (hsome : ∃ cp ∈ options.plugins, cp.cacheWillUpdate.isSome = true) :
    ((PrecacheStrategy.make options).handleInstall h request).1 = Except.ok (some r) ∧
      commitCount ((PrecacheStrategy.make options).handleInstall h request).2 = 1 := by
  have hcust : (PrecacheStrategy.make options).usesCustomCacheableResponseLogic = true := by
    rw [usesCustom_make, List.any_eq_true]
    exact hsome
  simp [PrecacheStrategy.handleInstall, Handler.fetchAndCachePut, hr, hcust,
    commitCount, List.countP_cons]

/-- Witness for claim C5: a 500 response under one caller-supplied
will-update transform is committed and returned. -/
theorem handleInstall_badStatus_customLogic_commits_witness :
    (installHandler (some exampleResponse500)).network exampleRequest
        = some exampleResponse500 ∧
    400 ≤ exampleResponse500.status ∧
    (∃ cp ∈ customOptions.plugins, cp.cacheWillUpdate.isSome = true) ∧
    ((PrecacheStrategy.make customOptions).handleInstall
          (installHandler (some exampleResponse500)) exampleRequest).1
        = Except.ok (some exampleResponse500) ∧
    commitCount ((PrecacheStrategy.make customOptions).handleInstall
        (installHandler (some exampleResponse500)) exampleRequest).2 = 1 :=
  ⟨rfl, by decide, ⟨{ cacheWillUpdate := some (fun r => r) }, by simp [customOptions], rfl⟩,
    (handleInstall_badStatus_customLogic_commits customOptions
      (installHandler (some exampleResponse500)) exampleRequest exampleResponse500
      rfl (by decide)
      ⟨{ cacheWillUpdate := some (fun r => r) }, by simp [customOptions], rfl⟩).1,
    (handleInstall_badStatus_customLogic_commits customOptions
      (installHandler (some exampleResponse500)) exampleRequest exampleResponse500
      rfl (by decide)
      ⟨{ cacheWillUpdate := some (fun r => r) }, by simp [customOptions], rfl⟩).2⟩

/-- Claim C10: for every install-time fetch yielding a response with status
strictly below 400 — status 0 included — on an instance with no
caller-supplied will-update transform, `_handleInstall` deems the response
safe and returns it without error. -/
theorem handleInstall_goodStatus_noCustom_ok (options : StrategyOptions)
    (h : Handler) (request : Request) (r : Response)
    (hr : h.network request = some r) (hst : r.status < 400)
    (hnone : ∀ cp ∈ options.plugins, cp.cacheWillUpdate = none) :
    ((PrecacheStrategy.make options).handleInstall h request).1 = Except.ok (some r) := by
  have hcust := usesCustom_make_eq_false options hnone
  have hdec : decide (400 ≤ r.status) = false := by
    simp only [decide_eq_false_iff_not]
    omega
  simp [PrecacheStrategy.handleInstall, Handler.fetchAndCachePut, hr, hcust, hdec]

/-- Witness for claim C10 at a concrete opaque (status 0) response. -/
theorem handleInstall_goodStatus_noCustom_ok_witness :
    (installHandler (some exampleResponse0)).network exampleRequest
        = some exampleResponse0 ∧
    exampleResponse0.status < 400 ∧
    (∀ cp ∈ emptyOptions.plugins, cp.cacheWillUpdate = none) ∧
    ((PrecacheStrategy.make emptyOptions).handleInstall
        (installHandler (some exampleResponse0)) exampleRequest).1
      = Except.ok (some exampleResponse0) :=
  ⟨rfl, by decide, by simp [emptyOptions],
    handleInstall_goodStatus_noCustom_ok emptyOptions
      (installHandler (some exampleResponse0)) exampleRequest exampleResponse0
      rfl (by decide) (by simp [emptyOptions])⟩

/-- Claim C8: the redirect-normalizing transform maps a response whose
redirect flag is set to one with the flag cleared and status, headers, and
body preserved, and passes a response whose redirect flag is not set through
unchanged. -/
theorem copyRedirectedResponses_normalizes (r : Response) :
    (r.redirected = true →
      copyRedirectedResponses r
        = { status := r.status, redirected := false,
            headers := r.headers, body := r.body }) ∧
    (r.redirected = false → copyRedirectedResponses r = r) := by
  constructor <;> intro hr <;>
    simp [copyRedirectedResponses, copyResponse, hr]

/-- Witness for claim C8: one redirected and one non-redirected concrete
response. -/
theorem copyRedirectedResponses_normalizes_witness :
    exampleRedirectedResponse.redirected = true ∧
    copyRedirectedResponses exampleRedirectedResponse
        = { status := exampleRedirectedResponse.status, redirected := false,
            headers := exampleRedirectedResponse.headers,
            body := exampleRedirectedResponse.body } ∧
    exampleResponse200.redirected = false ∧
    copyRedirectedResponses exampleResponse200 = exampleResponse200 :=
  ⟨rfl, (copyRedirectedResponses_normalizes exampleRedirectedResponse).1 rfl,
    rfl, (copyRedirectedResponses_normalizes exampleResponse200).2 rfl⟩

/-- A strategy constructed with exactly one caller-supplied will-update
transform, exhibiting the position of the built-in transform in the hook
set. -/
def strategyC2 : PrecacheStrategy :=
  PrecacheStrategy.make
    { cacheName := "precache-c2", plugins := [{ cacheWillUpdate := some (fun r => r) }] }

/-- Claim C2 (counterexample): on an instance constructed with one
caller-supplied will-update transform, the built-in redirect-normalizing
transform occupies the last position of the hook list, after the
caller-supplied transform; so the claim that it is evaluated first — before
every caller-supplied transform — fails. -/
theorem redirectNormalizer_not_evaluated_first :
    ¬ ((strategyC2.willUpdateTransforms.countP Transform.isCopyRedirectedResponses = 1) ∧
        ∀ i j (hi : i < strategyC2.willUpdateTransforms.length)
          (hj : j < strategyC2.willUpdateTransforms.length),
          (strategyC2.willUpdateTransforms.get ⟨i, hi⟩).isCopyRedirectedResponses = true →
          (strategyC2.willUpdateTransforms.get ⟨j, hj⟩).isCopyRedirectedResponses = false →
          i < j) := by
  intro hcl
  have h10 := hcl.2 1 0 (by decide) (by decide) rfl rfl
  omega

/-- Claim C2 (amended): for every constructed instance, the built-in
redirect-normalizing transform is present exactly once in the will-update
hook set for the instance's lifetime, and during a store operation it is
evaluated after (last among) every caller-supplied transform: the hook list
is the caller-supplied transforms followed by the built-in one. -/
theorem redirectNormalizer_unique_and_last (options : StrategyOptions) :
    ((PrecacheStrategy.make options).willUpdateTransforms.countP
        Transform.isCopyRedirectedResponses = 1) ∧
    ∃ pre, (PrecacheStrategy.make options).willUpdateTransforms
          = pre ++ [Transform.copyRedirectedResponses] ∧
        ∀ t ∈ pre, t.isCopyRedirectedResponses = false := by
  have hsplit : (PrecacheStrategy.make options).willUpdateTransforms
      = (options.plugins.map CallerPlugin.toPlugin).filterMap Plugin.cacheWillUpdate
        ++ [Transform.copyRedirectedResponses] := by
    simp [PrecacheStrategy.make, PrecacheStrategy.willUpdateTransforms,
      List.filterMap_append]
  constructor
  · rw [hsplit, List.countP_append]
    have hzero : ((options.plugins.map CallerPlugin.toPlugin).filterMap
        Plugin.cacheWillUpdate).countP Transform.isCopyRedirectedResponses = 0 := by
      rw [List.countP_eq_zero]
      intro t ht
      simp [callerTransform_not_builtin options.plugins t ht]
    rw [hzero]
    rfl
  · exact ⟨_, hsplit, fun t ht => callerTransform_not_builtin options.plugins t ht⟩

end Workbox
